import Mathlib

/-!
Verification of the m3ajem page-extraction pipeline.

Shallow embedding of the pipeline scripts:
* `finalize_results.py` — `merge_page_results`, `finalize_dictionary`;
* `prepare_jobs.py` — `prepare_dictionary`;
* `process_batch.py` — `create_batch_request` / `process_single_job_async`
  page-range computation, batch terminal-state handling in
  `process_single_batch` and `resume_batches`, and the realtime retry loop.

Python `dict`s preserve insertion order, so mappings are modelled as
association lists with first-match lookup and in-place update.
-/

set_option autoImplicit false

/-- First-match lookup in an insertion-ordered association list; models
`key in d` / `d[key]` on a Python dict. -/
def lookupKey : List (String × String) → String → Option String
  | [], _ => none
  | (k, v) :: rest, key => if k = key then some v else lookupKey rest key

/-- Models `d[key] = value` on a Python dict: update in place when the key is
present, otherwise append at the end (insertion order). -/
def setKey : List (String × String) → String → String → List (String × String)
  | [], key, val => [(key, val)]
  | (k, v) :: rest, key, val =>
    if k = key then (k, val) :: rest else (k, v) :: setKey rest key val

/-- Models `key in d`. -/
def containsKey (m : List (String × String)) (key : String) : Bool :=
  (lookupKey m key).isSome

/-- One entry of an array-format page payload (`english_arabic_dictionary`
prompts).  `entry.get('is_continuation')` is modelled as a `Bool`, missing
keys as `""`/`false`. -/
structure ArrayEntry where
  is_continuation : Bool
  arabic_term : String
  english : String
  arabic : String

/-- The key derived for an array entry (finalize_results.py lines 138-145):
`"{arabic_term} ({english})"` when `english` is nonempty, else the term. -/
def arrayEntryKey (e : ArrayEntry) : String :=
  if e.english ≠ "" then e.arabic_term ++ " (" ++ e.english ++ ")"
  else e.arabic_term

/-- The value derived for an array entry (finalize_results.py lines 138-145). -/
def arrayEntryValue (e : ArrayEntry) : String :=
  if e.english ≠ "" then
    (if e.arabic ≠ "" then e.arabic_term ++ "\n" ++ e.arabic else e.arabic_term)
  else e.arabic

/-- A page's decoded payload.  The wrapper-key unwrapping of
finalize_results.py lines 113-121 (extracting a list from `data`/`entries`/…
and wrapping a single `arabic_term` object) normalizes payloads to one of
these two shapes; a mapping containing an `error` key is detected inside
`mergeStep`, mirroring line 110. -/
inductive PageResult where
  | arr : List ArrayEntry → PageResult
  | obj : List (String × String) → PageResult

/-- One element of the `page_results` list fed to `merge_page_results`. -/
structure PageData where
  page_num : Nat
  result : PageResult

/-- The mutable state of the merge loop: `merged` and `last_entry_key`.
The source also tracks `entry_sources` (which page produced each key), used
only for debugging prints and never part of the returned mapping, so it is
not modelled. -/
structure MergeState where
  merged : List (String × String)
  last_entry_key : Option String

/-- Processing of one array-format entry (finalize_results.py lines 126-149):
skip continuation markers and empty terms, otherwise unconditionally assign
`merged[key] = value` and update `last_entry_key`. -/
def processArrayEntry (st : MergeState) (e : ArrayEntry) : MergeState :=
  if e.is_continuation then st
  else if e.arabic_term = "" then st
  else
    { merged := setKey st.merged (arrayEntryKey e) (arrayEntryValue e),
      last_entry_key := some (arrayEntryKey e) }

/-- Processing of one mapping-format entry (finalize_results.py lines
167-177): on a duplicate key keep the new value only when strictly longer;
`last_entry_key` is updated for every entry. -/
def processDictEntry (st : MergeState) (kv : String × String) : MergeState :=
  { merged :=
      match lookupKey st.merged kv.1 with
      | some old =>
        if old.length < kv.2.length then setKey st.merged kv.1 kv.2
        else st.merged
      | none => setKey st.merged kv.1 kv.2,
    last_entry_key := some kv.1 }

/-- Processing of a mapping-format payload (finalize_results.py lines
151-177).  A `__continuation__` entry is space-joined onto
`merged[last_entry_key]` when `last_entry_key` is truthy (non-`None`,
nonempty) and present in `merged`, then removed before the entries are
merged. -/
def processObjResult (st : MergeState) (pairs : List (String × String)) :
    MergeState :=
  match lookupKey pairs "__continuation__" with
  | some t =>
    let st1 :=
      match st.last_entry_key with
      | some lk =>
        if lk ≠ "" ∧ containsKey st.merged lk then
          { st with
            merged :=
              setKey st.merged lk
                (((lookupKey st.merged lk).getD "") ++ " " ++ t) }
        else st
      | none => st
    (pairs.filter (fun kv => kv.1 ≠ "__continuation__")).foldl
      processDictEntry st1
  | none => pairs.foldl processDictEntry st

/-- One iteration of the page loop of `merge_page_results` (lines 103-177):
a mapping containing an `error` key is skipped entirely (line 110). -/
def mergeStep (st : MergeState) (pd : PageData) : MergeState :=
  match pd.result with
  | PageResult.arr entries => entries.foldl processArrayEntry st
  | PageResult.obj pairs =>
    if containsKey pairs "error" then st
    else processObjResult st pairs

/-- `merge_page_results` (finalize_results.py lines 84-179): fold all pages,
in the given order, starting from an empty map and no last entry. -/
def merge_page_results (page_results : List PageData) :
    List (String × String) :=
  (page_results.foldl mergeStep { merged := [], last_entry_key := none }).merged

/-- The two-page input of claim C1: page 1 produces `{"a": "foo"}`, page 2
produces `{"__continuation__": " bar", "b": "baz"}`. -/
def c1pages : List PageData :=
  [⟨1, PageResult.obj [("a", "foo")]⟩,
   ⟨2, PageResult.obj [("__continuation__", " bar"), ("b", "baz")]⟩]

/-- A row of the `jobs` table (prepare_jobs.py lines 54-67).  `created_at`
is never read or written by the operations embedded here and is omitted. -/
structure JobRow where
  id : Nat
  dictionary_id : Nat
  page_num : Nat
  status : String
  result_json : Option String
  error : Option String
  attempts : Nat
  completed_at : Option Nat

/-- A row of the `dictionaries` table (prepare_jobs.py lines 37-52);
`created_at`/`completed_at` omitted as above for the prepare path. -/
structure DictRow where
  id : Nat
  folder_name : String
  name : String
  description : String
  prompt_name : String
  context_pages : Nat
  skip_pages : Nat
  pdf_path : String
  total_pages : Nat
  status : String

/-- The job store: the `dictionaries` and `jobs` tables. -/
structure Store where
  dictionaries : List DictRow
  jobs : List JobRow

/-- A dictionary folder as seen by `prepare_dictionary`: its name, whether a
final `{folder}.json` artifact exists (`is_already_processed`), the PDF found
by `find_pdf_file` (if any), the metadata parsed from the `description` file,
and the PDF's page count (`get_pdf_page_count`). -/
structure Folder where
  folder_name : String
  has_final_json : Bool
  pdf_path : Option String
  name : String
  description : String
  prompt_name : String
  context_pages : Nat
  skip_pages : Nat
  total_pages : Nat

/-- `SELECT id, status FROM dictionaries WHERE folder_name = ?`. -/
def lookupDict (ds : List DictRow) (folder : String) : Option DictRow :=
  ds.find? (fun d => d.folder_name = folder)

/-- Fresh AUTOINCREMENT id for the dictionaries table. -/
def nextDictId (s : Store) : Nat :=
  (s.dictionaries.map DictRow.id).foldr max 0 + 1

/-- Fresh AUTOINCREMENT id for the jobs table (first id of a bulk insert). -/
def nextJobId (s : Store) : Nat :=
  (s.jobs.map JobRow.id).foldr max 0 + 1

/-- The page numbers jobs are created for (prepare_jobs.py lines 226-227):
`range(skip_pages + 1, total_pages + 1)`. -/
def job_pages (skip_pages total_pages : Nat) : List Nat :=
  List.range' (skip_pages + 1) (total_pages - skip_pages)

/-- The job rows inserted by the loop at prepare_jobs.py lines 227-231: one
`pending` row per page, with SQL column defaults (`attempts = 0`, NULL
payload/error/completion), ids assigned consecutively from `first_job_id`. -/
def new_jobs (dict_id first_job_id skip_pages total_pages : Nat) :
    List JobRow :=
  (job_pages skip_pages total_pages).map (fun p =>
    { id := first_job_id + (p - (skip_pages + 1)),
      dictionary_id := dict_id,
      page_num := p,
      status := "pending",
      result_json := none,
      error := none,
      attempts := 0,
      completed_at := none })

/-- `prepare_dictionary` (prepare_jobs.py lines 168-237): skip when the
folder is already in the database (without force), or already has its final
JSON (without force), or has no PDF; on force, delete the existing jobs and
dictionary row first; then insert one dictionary row and one job per page in
`[skip_pages + 1, total_pages]`.  Returns whether jobs were created, paired
with the updated store. -/
def prepare_dictionary (store : Store) (f : Folder) (force : Bool) :
    Bool × Store :=
  let existing := lookupDict store.dictionaries f.folder_name
  if existing.isSome && !force then (false, store)
  else if f.has_final_json && !force then (false, store)
  else
    match f.pdf_path with
    | none => (false, store)
    | some pdf =>
      let store1 :=
        match existing, force with
        | some d, true =>
          { dictionaries := store.dictionaries.filter (fun x => x.id ≠ d.id),
            jobs := store.jobs.filter (fun j => j.dictionary_id ≠ d.id) }
        | _, _ => store
      let dict_id := nextDictId store1
      let row : DictRow :=
        { id := dict_id, folder_name := f.folder_name, name := f.name,
          description := f.description, prompt_name := f.prompt_name,
          context_pages := f.context_pages, skip_pages := f.skip_pages,
          pdf_path := pdf, total_pages := f.total_pages, status := "pending" }
      let js := new_jobs dict_id (nextJobId store1) f.skip_pages f.total_pages
      (true, { dictionaries := store1.dictionaries ++ [row],
               jobs := store1.jobs ++ js })

/-- Terminal-state handling inside the polling loop of `process_single_batch`
(process_batch.py lines 493-511): on `failed` every covered job is set to
`failed` with error `"Batch failed"`; on `cancelled`/`expired` every covered
job is set back to `pending` with error `"Batch <status>"`.  The
`executemany` updates touch only `status` and `error`. -/
def process_single_batch_terminal (jobs : List JobRow) (job_ids : List Nat)
    (batch_status : String) : List JobRow :=
  if batch_status = "failed" then
    jobs.map (fun j =>
      if j.id ∈ job_ids then
        { j with status := "failed", error := some "Batch failed" }
      else j)
  else if batch_status = "cancelled" ∨ batch_status = "expired" then
    jobs.map (fun j =>
      if j.id ∈ job_ids then
        { j with status := "pending",
                 error := some ("Batch " ++ batch_status) }
      else j)
  else jobs

/-- Terminal-state handling in `resume_batches` (process_batch.py lines
686-692): on `failed`/`cancelled`/`expired` every covered job is reset to
`pending`; the `UPDATE` touches only `status`. -/
def resume_batches_terminal (jobs : List JobRow) (job_ids : List Nat)
    (batch_status : String) : List JobRow :=
  if batch_status = "failed" ∨ batch_status = "cancelled"
      ∨ batch_status = "expired" then
    jobs.map (fun j =>
      if j.id ∈ job_ids then { j with status := "pending" } else j)
  else jobs

/-- The outcome of one model call in the realtime engine's retry loop:
success, a transient error (`APITimeoutError`/`APIConnectionError`/
`InternalServerError`), or an `APIStatusError` carrying a status code. -/
inductive CallOutcome where
  | ok : String → CallOutcome
  | transient : CallOutcome
  | statusErr : Nat → CallOutcome

/-- The backoff of the realtime retry loop: `min(30 * attempt, 300)`
(process_batch.py lines 777 and 783). -/
def backoff (attempt : Nat) : Nat := min (30 * attempt) 300

/-- The retry loop of `process_single_job_async` (process_batch.py lines
763-787), run against a list of simulated call outcomes.  Returns
`some (Except.ok payload, attempt, waits)` on success,
`some (Except.error code, attempt, waits)` when a non-5xx `APIStatusError`
is re-raised, and `none` when the simulated outcomes run out (the real loop
would keep retrying).  `attempt` is the loop counter's final value and
`waits` the backoff sleeps performed. -/
def retry_model_call : List CallOutcome → Nat →
    Option (Except Nat String × Nat × List Nat)
  | [], _ => none
  | CallOutcome.ok p :: _, attempt => some (Except.ok p, attempt, [])
  | CallOutcome.transient :: rest, attempt =>
    match retry_model_call rest (attempt + 1) with
    | some (r, a, ws) => some (r, a, backoff (attempt + 1) :: ws)
    | none => none
  | CallOutcome.statusErr c :: rest, attempt =>
    if 500 ≤ c then
      match retry_model_call rest (attempt + 1) with
      | some (r, a, ws) => some (r, a, backoff (attempt + 1) :: ws)
      | none => none
    else some (Except.error c, attempt, [])

/-- The job-row effect of `process_single_job_async` (process_batch.py lines
789-811): on success `status = 'completed'`, `result_json` and
`completed_at` are set; on a raised (non-transient) error `status = 'failed'`
and `error` is set.  Neither update touches `attempts`.  `none` means the
simulation's outcomes ran out before the loop ended. -/
def process_single_job (job : JobRow) (outcomes : List CallOutcome)
    (now : Nat) : Option JobRow :=
  match retry_model_call outcomes 0 with
  | some (Except.ok p, _, _) =>
    some { job with status := "completed", result_json := some p,
                    completed_at := some now }
  | some (Except.error c, _, _) =>
    some { job with status := "failed", error := some (toString c) }
  | none => none

/-- The page range attached to a request: `start = max(1, page - context)`,
`pages = range(start, page + 1)` (process_batch.py lines 332-333 and
742-743). -/
def pages_to_send (page_num context_pages : Nat) : List Nat :=
  List.range' (max 1 (page_num - context_pages))
    (page_num + 1 - max 1 (page_num - context_pages))

/-- The pages rasterized by `create_batch_request` (lines 331-352). -/
def create_batch_request_pages (page_num context_pages : Nat) : List Nat :=
  pages_to_send page_num context_pages

/-- The pages rasterized by `process_single_job_async` (lines 741-760). -/
def process_single_job_pages (page_num context_pages : Nat) : List Nat :=
  pages_to_send page_num context_pages

/-- The unified output artifact (`create_unified_json`, finalize_results.py
lines 182-189). -/
structure UnifiedJson where
  name : String
  description : String
  type : String
  data : List (String × String)

/-- `create_unified_json`: wraps the merged mapping with display metadata
and `type = 'moraqman'`. -/
def create_unified_json (name description : String)
    (merged : List (String × String)) : UnifiedJson :=
  { name := name, description := description, type := "moraqman",
    data := merged }

/-- Observable outcome of `finalize_dictionary`: its return value, the
merged mapping it computed, the file written (if any), and the dictionary
row's status / completion timestamp afterwards. -/
structure FinalizeOutcome where
  success : Bool
  merged : List (String × String)
  written : Option UnifiedJson
  dict_status : String
  completed_at : Option Nat

/-- `finalize_dictionary` (finalize_results.py lines 192-246) for a
dictionary row with the given status/completion timestamp and display
metadata: with no completed page results it returns `False` and changes
nothing; otherwise it merges; in dry-run mode it returns `True` without
writing a file or touching the dictionary row; otherwise it writes the
unified JSON and sets the row to `finalized` with `completed_at = now`. -/
def finalize_dictionary (name description dict_status : String)
    (completed_at : Option Nat) (page_results : List PageData)
    (dry_run : Bool) (now : Nat) : FinalizeOutcome :=
  if page_results.isEmpty then
    { success := false, merged := [], written := none,
      dict_status := dict_status, completed_at := completed_at }
  else
    let merged := merge_page_results page_results
    if dry_run then
      { success := true, merged := merged, written := none,
        dict_status := dict_status, completed_at := completed_at }
    else
      { success := true, merged := merged,
        written := some (create_unified_json name description merged),
        dict_status := "finalized", completed_at := some now }

/-- Demo store for witnesses: empty. -/
def emptyStore : Store := { dictionaries := [], jobs := [] }

/-- Demo folder for witnesses: a 5-page PDF skipping 2 pages. -/
def demoFolder : Folder :=
  { folder_name := "alqab", has_final_json := false,
    pdf_path := some "maajim/moraqman/alqab/alqab.pdf",
    name := "demo", description := "demo dict",
    prompt_name := "arabic_only_with_diacritics",
    context_pages := 1, skip_pages := 2, total_pages := 5 }

/-- Demo job row used in witnesses and counterexamples. -/
def demoJob : JobRow :=
  { id := 1, dictionary_id := 1, page_num := 5, status := "processing",
    result_json := none, error := none, attempts := 2,
    completed_at := none }

/-- The job row of the C3 scenario: freshly claimed, zero attempts. -/
def c3job : JobRow :=
  { id := 7, dictionary_id := 2, page_num := 3, status := "processing",
    result_json := none, error := none, attempts := 0, completed_at := none }

/-- The C3 outcome sequence: three transient errors, then success. -/
def c3outcomes : List CallOutcome :=
  [CallOutcome.transient, CallOutcome.transient, CallOutcome.transient,
   CallOutcome.ok "{}"]

/-- The dictionary row of the C5 witness store. -/
def c5row : DictRow :=
  { id := 1, folder_name := "alqab", name := "n", description := "d",
    prompt_name := "arabic_only_with_diacritics", context_pages := 1,
    skip_pages := 0, pdf_path := "maajim/moraqman/alqab/a.pdf",
    total_pages := 5, status := "processing" }

/-- A store already containing the demo folder's dictionary row. -/
def c5store : Store := { dictionaries := [c5row], jobs := [] }

/-- The single completed page of the C9 witness. -/
def c9pages : List PageData := [⟨1, PageResult.obj [("k", "v")]⟩]

theorem lookupKey_setKey_self (m : List (String × String)) (k v : String) :
    lookupKey (setKey m k v) k = some v := by
  induction m with
  | nil => simp [setKey, lookupKey]
  | cons hd tl ih =>
    by_cases h : hd.1 = k
    · simp [setKey, lookupKey, h]
    · simp [setKey, lookupKey, h, ih]

/-- C1, counterexample: on the claimed input the merged result is not
`{"a": "foo bar", "b": "baz"}` — the code joins with an extra space
(`merged[k] += ' ' + text` where the text already starts with a space). -/
theorem c1_merge_continuation_counterexample :
    merge_page_results c1pages ≠ [("a", "foo bar"), ("b", "baz")] := by
  decide

/-- C1, amended: the merged result is `{"a": "foo  bar", "b": "baz"}` — the
continuation text is joined onto the last entry of the previous page with an
inserted space (yielding a double space here, since the continuation text
itself begins with one), and no `__continuation__` key appears in the
output. -/
theorem c1_merge_continuation :
    merge_page_results c1pages = [("a", "foo  bar"), ("b", "baz")]
    ∧ lookupKey (merge_page_results c1pages) "__continuation__" = none := by
  constructor
  · rfl
  · rfl

/-- C6: when a mapping-format entry arrives (not via the continuation path)
whose key already exists, the retained value is the new one exactly when it
is strictly longer, so the longer of the two candidates survives; in
particular `{"x": "short"}` followed by `{"x": "a longer definition"}`
yields the longer string. -/
theorem c6_duplicate_key_keeps_longer (st : MergeState) (k v old : String)
    (h : lookupKey st.merged k = some old) :
    lookupKey (processDictEntry st (k, v)).merged k =
      some (if old.length < v.length then v else old)
    ∧ merge_page_results
        [⟨1, PageResult.obj [("x", "short")]⟩,
         ⟨2, PageResult.obj [("x", "a longer definition")]⟩] =
      [("x", "a longer definition")] := by
  constructor
  · by_cases hlen : old.length < v.length
    · simp [processDictEntry, h, hlen, lookupKey_setKey_self]
    · simp [processDictEntry, h, hlen]
  · rfl

theorem c6_duplicate_key_keeps_longer_witness :
    lookupKey (MergeState.mk [("x", "short")] (some "x")).merged "x" =
      some "short"
    ∧ (lookupKey
        (processDictEntry (MergeState.mk [("x", "short")] (some "x"))
          ("x", "a longer definition")).merged "x" =
        some (if ("short" : String).length <
            ("a longer definition" : String).length then
          "a longer definition" else "short")
      ∧ merge_page_results
          [⟨1, PageResult.obj [("x", "short")]⟩,
           ⟨2, PageResult.obj [("x", "a longer definition")]⟩] =
        [("x", "a longer definition")]) :=
  ⟨rfl, c6_duplicate_key_keeps_longer (MergeState.mk [("x", "short")]
    (some "x")) "x" "a longer definition" "short" rfl⟩

/-- C7: for array-format payloads the derived key is assigned
unconditionally (`merged[key] = value`), so a later page's value replaces an
earlier one with no length comparison — here the later, *shorter* value
`"t\nz"` replaces the earlier longer one. -/
theorem c7_array_entry_overwrite (st : MergeState) (e : ArrayEntry)
    (h1 : e.is_continuation = false) (h2 : e.arabic_term ≠ "") :
    lookupKey (processArrayEntry st e).merged (arrayEntryKey e) =
      some (arrayEntryValue e)
    ∧ merge_page_results
        [⟨1, PageResult.arr [⟨false, "t", "e", "a long early definition"⟩]⟩,
         ⟨2, PageResult.arr [⟨false, "t", "e", "z"⟩]⟩] =
      [("t (e)", "t\nz")] := by
  constructor
  · simp [processArrayEntry, h1, h2, lookupKey_setKey_self]
  · rfl

theorem c7_array_entry_overwrite_witness :
    (ArrayEntry.mk false "t" "e" "z").is_continuation = false
    ∧ (ArrayEntry.mk false "t" "e" "z").arabic_term ≠ ""
    ∧ (lookupKey
        (processArrayEntry (MergeState.mk [] none)
          (ArrayEntry.mk false "t" "e" "z")).merged
        (arrayEntryKey (ArrayEntry.mk false "t" "e" "z")) =
        some (arrayEntryValue (ArrayEntry.mk false "t" "e" "z"))
      ∧ merge_page_results
          [⟨1, PageResult.arr [⟨false, "t", "e", "a long early definition"⟩]⟩,
           ⟨2, PageResult.arr [⟨false, "t", "e", "z"⟩]⟩] =
        [("t (e)", "t\nz")]) :=
  ⟨rfl, by decide,
   c7_array_entry_overwrite (MergeState.mk [] none)
     (ArrayEntry.mk false "t" "e" "z") rfl (by decide)⟩

/-- C10: a `__continuation__` entry arriving when no last entry key exists
(`last_entry_key` is `None`) is silently discarded — processing the page is
exactly processing it with the continuation pair filtered out, and the
remaining entries merge normally, as on a single first page. -/
theorem c10_orphan_continuation_discarded (st : MergeState)
    (pairs : List (String × String)) (t : String)
    (hlast : st.last_entry_key = none)
    (hcont : lookupKey pairs "__continuation__" = some t) :
    processObjResult st pairs =
      (pairs.filter (fun kv => kv.1 ≠ "__continuation__")).foldl
        processDictEntry st
    ∧ merge_page_results
        [⟨1, PageResult.obj [("__continuation__", "tail"), ("k", "v")]⟩] =
      [("k", "v")] := by
  constructor
  · simp [processObjResult, hcont, hlast]
  · rfl

theorem c10_orphan_continuation_discarded_witness :
    (MergeState.mk [] none).last_entry_key = none
    ∧ lookupKey [("__continuation__", "tail"), ("k", "v")]
        "__continuation__" = some "tail"
    ∧ (processObjResult (MergeState.mk [] none)
        [("__continuation__", "tail"), ("k", "v")] =
        ([("__continuation__", "tail"), ("k", "v")].filter
          (fun kv => kv.1 ≠ "__continuation__")).foldl
          processDictEntry (MergeState.mk [] none)
      ∧ merge_page_results
          [⟨1, PageResult.obj [("__continuation__", "tail"), ("k", "v")]⟩] =
        [("k", "v")]) :=
  ⟨rfl, rfl,
   c10_orphan_continuation_discarded (MergeState.mk [] none)
     [("__continuation__", "tail"), ("k", "v")] "tail" rfl rfl⟩

/-- C2, counterexample: in the synchronous polling path, a batch ending in
the terminal failure state `failed` does not leave its covered jobs
`pending` — they are marked `failed`. -/
theorem c2_batch_failed_counterexample :
    ¬ ∀ j ∈ process_single_batch_terminal [demoJob] [1] "failed",
        j.status = "pending" := by
  decide

/-- C2, amended: in `process_single_batch`, only `cancelled`/`expired` reset
covered jobs to `pending` (attempts unchanged); a `failed` batch marks them
`failed` with error `"Batch failed"`; in `resume_batches`, all of
`failed`/`cancelled`/`expired` reset covered jobs to `pending` with attempts
unchanged. -/
theorem c2_batch_terminal_recovery (jobs : List JobRow) (ids : List Nat)
    (j : JobRow) (s : String) (hmem : j ∈ jobs) (hid : j.id ∈ ids) :
    (s = "cancelled" ∨ s = "expired" →
      ∃ j' ∈ process_single_batch_terminal jobs ids s,
        j'.id = j.id ∧ j'.status = "pending" ∧ j'.attempts = j.attempts)
    ∧ (s = "failed" ∨ s = "cancelled" ∨ s = "expired" →
      ∃ j' ∈ resume_batches_terminal jobs ids s,
        j'.id = j.id ∧ j'.status = "pending" ∧ j'.attempts = j.attempts)
    ∧ process_single_batch_terminal jobs ids "failed" =
        jobs.map (fun x =>
          if x.id ∈ ids then
            { x with status := "failed", error := some "Batch failed" }
          else x) := by
  refine ⟨?_, ?_, ?_⟩
  · rintro (rfl | rfl) <;>
    · unfold process_single_batch_terminal
      rw [if_neg (by decide), if_pos (by decide)]
      exact ⟨_, List.mem_map.mpr ⟨j, hmem, rfl⟩, by simp [hid]⟩
  · rintro (rfl | rfl | rfl) <;>
    · unfold resume_batches_terminal
      rw [if_pos (by decide)]
      exact ⟨_, List.mem_map.mpr ⟨j, hmem, rfl⟩, by simp [hid]⟩
  · unfold process_single_batch_terminal
    rw [if_pos rfl]

theorem c2_batch_terminal_recovery_witness :
    demoJob ∈ [demoJob] ∧ (1 : Nat) ∈ [1]
    ∧ (("cancelled" = "cancelled" ∨ "cancelled" = "expired" →
        ∃ j' ∈ process_single_batch_terminal [demoJob] [1] "cancelled",
          j'.id = demoJob.id ∧ j'.status = "pending"
          ∧ j'.attempts = demoJob.attempts)
      ∧ ("cancelled" = "failed" ∨ "cancelled" = "cancelled"
          ∨ "cancelled" = "expired" →
        ∃ j' ∈ resume_batches_terminal [demoJob] [1] "cancelled",
          j'.id = demoJob.id ∧ j'.status = "pending"
          ∧ j'.attempts = demoJob.attempts)
      ∧ process_single_batch_terminal [demoJob] [1] "failed" =
          [demoJob].map (fun x =>
            if x.id ∈ [1] then
              { x with status := "failed", error := some "Batch failed" }
            else x)) :=
  ⟨List.mem_singleton_self _, List.mem_singleton_self _,
   c2_batch_terminal_recovery [demoJob] [1] demoJob "cancelled"
     (List.mem_singleton_self _) (List.mem_singleton_self _)⟩

/-- C3, counterexample: after three transient errors and a success the job
is `completed`, but the stored attempts counter does not reflect 4 tries —
the realtime path never updates the `attempts` column, so it stays 0. -/
theorem c3_retry_attempts_counterexample :
    (process_single_job c3job c3outcomes 100).map JobRow.status =
      some "completed"
    ∧ (process_single_job c3job c3outcomes 100).map JobRow.attempts ≠
      some 4 := by
  constructor
  · rfl
  · decide

/-- C3, amended: three transient errors followed by success end the job
`completed` (never `failed`), with payload and completion time stored and
the stored attempts counter left unchanged; the in-place retries back off
`min(30·attempt, 300)` seconds, i.e. 30, 60, 90; a 4xx `APIStatusError` is
terminal, marking the job `failed`. -/
theorem c3_realtime_retry (job : JobRow) (p : String) (now c : Nat)
    (hc : c < 500) :
    process_single_job job
        [CallOutcome.transient, CallOutcome.transient, CallOutcome.transient,
         CallOutcome.ok p] now =
      some { job with status := "completed", result_json := some p,
                      completed_at := some now }
    ∧ retry_model_call
        [CallOutcome.transient, CallOutcome.transient, CallOutcome.transient,
         CallOutcome.ok p] 0 =
      some (Except.ok p, 3, [backoff 1, backoff 2, backoff 3])
    ∧ [backoff 1, backoff 2, backoff 3] = [30, 60, 90]
    ∧ (process_single_job job
        [CallOutcome.transient, CallOutcome.transient, CallOutcome.transient,
         CallOutcome.ok p] now).map JobRow.attempts = some job.attempts
    ∧ process_single_job job [CallOutcome.statusErr c] now =
        some { job with status := "failed", error := some (toString c) } := by
  refine ⟨rfl, rfl, by decide, rfl, ?_⟩
  simp [process_single_job, retry_model_call, Nat.not_le.mpr hc]

theorem c3_realtime_retry_witness :
    404 < 500
    ∧ (process_single_job c3job
          [CallOutcome.transient, CallOutcome.transient,
           CallOutcome.transient, CallOutcome.ok "{}"] 9 =
        some { c3job with status := "completed", result_json := some "{}",
                          completed_at := some 9 }
      ∧ retry_model_call
          [CallOutcome.transient, CallOutcome.transient,
           CallOutcome.transient, CallOutcome.ok "{}"] 0 =
        some (Except.ok "{}", 3, [backoff 1, backoff 2, backoff 3])
      ∧ [backoff 1, backoff 2, backoff 3] = [30, 60, 90]
      ∧ (process_single_job c3job
          [CallOutcome.transient, CallOutcome.transient,
           CallOutcome.transient, CallOutcome.ok "{}"] 9).map
          JobRow.attempts = some c3job.attempts
      ∧ process_single_job c3job [CallOutcome.statusErr 404] 9 =
          some { c3job with status := "failed",
                            error := some (toString 404) }) :=
  ⟨by decide, c3_realtime_retry c3job "{}" 9 404 (by decide)⟩

/-- C5: preparation is idempotent — with the folder's dictionary row already
in the store and no force, `prepare_dictionary` creates nothing and returns
the store unchanged. -/
theorem c5_prepare_idempotent (store : Store) (f : Folder) (d : DictRow)
    (h : lookupDict store.dictionaries f.folder_name = some d) :
    prepare_dictionary store f false = (false, store) := by
  unfold prepare_dictionary
  rw [h]
  rfl

theorem c5_prepare_idempotent_witness :
    lookupDict c5store.dictionaries demoFolder.folder_name = some c5row
    ∧ prepare_dictionary c5store demoFolder false = (false, c5store) :=
  ⟨rfl, c5_prepare_idempotent c5store demoFolder c5row rfl⟩

/-- C4: whenever `prepare_dictionary` creates jobs for a folder with
`skip_pages = s` and `total_pages = t`, the store afterwards holds the prior
jobs plus the freshly created rows; those rows number exactly `t - s`, their
page numbers are exactly `range(s+1, t+1)`, and that range is the contiguous
interval `[s+1, t]` with no gaps and no duplicates. -/
theorem c4_prepare_creates_contiguous_jobs (store : Store) (f : Folder)
    (force : Bool) (h : (prepare_dictionary store f force).1 = true) :
    (∃ base dict_id first_id,
      (prepare_dictionary store f force).2.jobs =
        base ++ new_jobs dict_id first_id f.skip_pages f.total_pages)
    ∧ (∀ d i, (new_jobs d i f.skip_pages f.total_pages).length =
        f.total_pages - f.skip_pages)
    ∧ (∀ d i, (new_jobs d i f.skip_pages f.total_pages).map JobRow.page_num =
        job_pages f.skip_pages f.total_pages)
    ∧ (∀ p, p ∈ job_pages f.skip_pages f.total_pages ↔
        f.skip_pages + 1 ≤ p ∧ p ≤ f.total_pages)
    ∧ (job_pages f.skip_pages f.total_pages).Nodup := by
  refine ⟨?_, ?_, ?_, ?_, ?_⟩
  · unfold prepare_dictionary at h ⊢
    by_cases h1 :
        ((lookupDict store.dictionaries f.folder_name).isSome && !force) = true
    · rw [if_pos h1] at h
      exact absurd h (by simp)
    · rw [if_neg h1] at h ⊢
      by_cases h2 : (f.has_final_json && !force) = true
      · rw [if_pos h2] at h
        exact absurd h (by simp)
      · rw [if_neg h2] at h ⊢
        cases hpdf : f.pdf_path with
        | none =>
          rw [hpdf] at h
          exact absurd h (by simp)
        | some pdf =>
          exact ⟨_, _, _, rfl⟩
  · intro d i
    simp [new_jobs, job_pages]
  · intro d i
    simp [new_jobs, List.map_map]
    exact List.map_id _
  · intro p
    simp only [job_pages, List.mem_range'_1]
    omega
  · exact List.nodup_range' _ _

theorem c4_prepare_creates_contiguous_jobs_witness :
    (prepare_dictionary emptyStore demoFolder false).1 = true
    ∧ ((∃ base dict_id first_id,
        (prepare_dictionary emptyStore demoFolder false).2.jobs =
          base ++ new_jobs dict_id first_id demoFolder.skip_pages
            demoFolder.total_pages)
      ∧ (∀ d i,
          (new_jobs d i demoFolder.skip_pages demoFolder.total_pages).length =
            demoFolder.total_pages - demoFolder.skip_pages)
      ∧ (∀ d i,
          (new_jobs d i demoFolder.skip_pages demoFolder.total_pages).map
            JobRow.page_num =
            job_pages demoFolder.skip_pages demoFolder.total_pages)
      ∧ (∀ p, p ∈ job_pages demoFolder.skip_pages demoFolder.total_pages ↔
          demoFolder.skip_pages + 1 ≤ p ∧ p ≤ demoFolder.total_pages)
      ∧ (job_pages demoFolder.skip_pages demoFolder.total_pages).Nodup) :=
  ⟨rfl, c4_prepare_creates_contiguous_jobs emptyStore demoFolder false rfl⟩

/-- C8: the request builders attach images for exactly the contiguous page
range `[max(1, page - context), page]` in ascending order, the last image
being the current page — identically in `create_batch_request` and
`process_single_job_async`. -/
theorem c8_request_page_range (p c : Nat) (hp : 1 ≤ p) :
    (∀ q, q ∈ create_batch_request_pages p c ↔ max 1 (p - c) ≤ q ∧ q ≤ p)
    ∧ (create_batch_request_pages p c).getLast? = some p
    ∧ List.Sorted (· < ·) (create_batch_request_pages p c)
    ∧ process_single_job_pages p c = create_batch_request_pages p c := by
  refine ⟨?_, ?_, ?_, rfl⟩
  · intro q
    simp only [create_batch_request_pages, pages_to_send, List.mem_range'_1]
    omega
  · have hk : p + 1 - max 1 (p - c) = (p - max 1 (p - c)) + 1 := by omega
    simp only [create_batch_request_pages, pages_to_send, hk,
      List.range'_concat, List.getLast?_concat]
    congr 1
    omega
  · exact List.pairwise_lt_range' _ _

theorem c8_request_page_range_witness :
    1 ≤ 5
    ∧ ((∀ q, q ∈ create_batch_request_pages 5 2 ↔
          max 1 (5 - 2) ≤ q ∧ q ≤ 5)
      ∧ (create_batch_request_pages 5 2).getLast? = some 5
      ∧ List.Sorted (· < ·) (create_batch_request_pages 5 2)
      ∧ process_single_job_pages 5 2 = create_batch_request_pages 5 2) :=
  ⟨by decide, c8_request_page_range 5 2 (by decide)⟩

/-- C9: in dry-run mode, `finalize_dictionary` on a dictionary with at least
one completed page performs the merge and returns success, but writes no
output file and leaves the dictionary row's status and completion timestamp
unchanged. -/
theorem c9_finalize_dry_run (name descr dict_status : String)
    (ca : Option Nat) (pages : List PageData) (now : Nat) (h : pages ≠ []) :
    finalize_dictionary name descr dict_status ca pages true now =
      { success := true, merged := merge_page_results pages, written := none,
        dict_status := dict_status, completed_at := ca } := by
  cases pages with
  | nil => exact absurd rfl h
  | cons a l => rfl

theorem c9_finalize_dry_run_witness :
    c9pages ≠ []
    ∧ finalize_dictionary "n" "d" "processing" none c9pages true 7 =
        { success := true, merged := merge_page_results c9pages,
          written := none, dict_status := "processing",
          completed_at := none } :=
  ⟨List.cons_ne_nil _ _,
   c9_finalize_dry_run "n" "d" "processing" none c9pages 7
     (List.cons_ne_nil _ _)⟩
